import Mathlib

/-!
Verification of the transport core of the canvas_lms_connector crate.

The development shallowly embeds the HTTP transport layer of the crate:

* `src/connection.rs`: the request dispatcher
  (`send_http_request_single_attempt`), the retry wrapper
  (`send_http_request`) and the global semaphore declaration.
* `src/canvas.rs`: the paginated fetch loops
  (`fetch_courses_with_credentials`, `get_all_submissions`,
  `fetch_students`) and the JSON-to-domain mappers
  (`convert_json_to_course`, `convert_json_to_student`).

The outside world (the network) is modelled by an oracle `serve` mapping
the index of a network call and the built request to a transport-level
outcome.  Every observable effect of the embedded code (network calls,
sleeps, semaphore operations) is recorded in an explicit effect trace, so
counting calls and sleeps, and the absence of semaphore operations, are
provable statements.  Loops that the source runs without any bound are
embedded with an explicit fuel argument; a `none` result means the fuel
was exhausted while the loop was still running.
-/

namespace CanvasLms

/-- A JSON value, mirroring the fragment of `serde_json::Value` the
mappers use: null, booleans, integer numbers, strings, arrays, objects. -/
inductive Json where
  | null
  | bool (b : Bool)
  | num (n : Int)
  | str (s : String)
  | arr (elements : List Json)
  | obj (fields : List (String × Json))

/-- Indexing `value[key]` of `serde_json`: on an object, the value of the
first field with the given key, `null` when absent; `null` on any
non-object value. -/
def Json.index (v : Json) (key : String) : Json :=
  match v with
  | .obj fields =>
    match fields.find? (fun f => f.1 == key) with
    | some f => f.2
    | none => .null
  | _ => .null

/-- `Value::as_u64`: the number when the value is a non-negative integer
number, `none` otherwise. -/
def Json.as_u64 (v : Json) : Option Nat :=
  match v with
  | .num n => if 0 ≤ n then some n.toNat else none
  | _ => none

/-- `Value::as_str`: the string when the value is a string, `none`
otherwise. -/
def Json.as_str (v : Json) : Option String :=
  match v with
  | .str s => some s
  | _ => none

/-- Credentials (`src/credentials.rs`): base API URL and bearer token. -/
structure CanvasCredentials where
  url_canvas : String
  token_canvas : String

/-- The HTTP method enum of `src/connection.rs`: GET, PUT and POST carry
a JSON body, DELETE is bare. -/
inductive HttpMethod where
  | get
  | put (body : Json)
  | post (body : Json)
  | delete

/-- The verb of a built request. -/
inductive Verb where
  | get
  | put
  | post
  | delete
deriving DecidableEq

/-- A request under construction, mirroring the attributes a
`reqwest::blocking::RequestBuilder` accumulates in this code: verb,
target URL, headers, query parameters and optional JSON body. -/
structure RequestBuilder where
  verb : Verb
  url : String
  headers : List (String × String)
  query : List (String × String)
  jsonBody : Option Json

/-- `client.get(url)` and friends: a fresh builder for a verb and URL. -/
def newRequest (verb : Verb) (url : String) : RequestBuilder :=
  ⟨verb, url, [], [], none⟩

/-- `RequestBuilder::bearer_auth(token)`: adds the authorization header
carrying the bearer token. -/
def RequestBuilder.bearer_auth (rb : RequestBuilder) (token : String) : RequestBuilder :=
  { rb with headers := rb.headers ++ [("Authorization", "Bearer " ++ token)] }

/-- `RequestBuilder::query(params)`: appends the query parameters. -/
def RequestBuilder.addQuery (rb : RequestBuilder) (params : List (String × String)) : RequestBuilder :=
  { rb with query := rb.query ++ params }

/-- `RequestBuilder::json(body)`: sets the JSON body. -/
def RequestBuilder.json (rb : RequestBuilder) (body : Json) : RequestBuilder :=
  { rb with jsonBody := some body }

/-- The request construction of `send_http_request_single_attempt`
(`src/connection.rs` lines 85-106): GET and DELETE attach the bearer
header and the query parameters, PUT and POST attach the bearer header
and the JSON body. -/
def buildRequest (method : HttpMethod) (url : String) (canvas_info : CanvasCredentials)
    (params : List (String × String)) : RequestBuilder :=
  match method with
  | .get => ((newRequest .get url).bearer_auth canvas_info.token_canvas).addQuery params
  | .put body => ((newRequest .put url).bearer_auth canvas_info.token_canvas).json body
  | .post body => ((newRequest .post url).bearer_auth canvas_info.token_canvas).json body
  | .delete => ((newRequest .delete url).bearer_auth canvas_info.token_canvas).addQuery params

/-- An HTTP response as this code observes it: numeric status and a
payload standing for the body, generic in how the caller consumes it. -/
structure Response (β : Type) where
  status : Nat
  payload : β

/-- Outcome of one wire-level send: a response arrived (any status), or
the transport itself failed (connection refused, timeout, DNS failure). -/
inductive TransportResult (β : Type) where
  | ok (r : Response β)
  | err

/-- `StatusCode::is_success` of reqwest: status in 200..=299. -/
def isSuccess (status : Nat) : Bool :=
  200 ≤ status && status < 300

/-- Observable effects of the transport layer, recorded in order. -/
inductive Effect where
  | netCall
  | sleepMs (ms : Nat)
  | semAcquire
  | semRelease
deriving DecidableEq

/-- Whether an effect is a semaphore operation. -/
def Effect.isSemOp : Effect → Bool
  | .semAcquire => true
  | .semRelease => true
  | _ => false

/-- The network oracle: the outcome the world gives to the n-th network
call, as a function of the request placed on the wire. -/
def Oracle (β : Type) : Type :=
  Nat → RequestBuilder → TransportResult β

/-- `SIMULTANEOUS_REQUESTS_LIMIT` (`src/connection.rs` line 23). -/
def SIMULTANEOUS_REQUESTS_LIMIT : Int := 20

/-- The initial permit count of the global `SEMAPHORE`
(`src/connection.rs` line 66): `Semaphore::new(SIMULTANEOUS_REQUESTS_LIMIT)`.
The declaration is the only mention of the semaphore in the source; no
function of the crate acquires or releases it. -/
def SEMAPHORE_initial_permits : Int := SIMULTANEOUS_REQUESTS_LIMIT

/-- Classification of one send outcome (`src/connection.rs` lines
111-115): a 2xx response is a success carrying the response, a non-2xx
response is an error carrying its numeric status, a transport failure is
an error carrying the sentinel status 0. -/
def classify {β : Type} (t : TransportResult β) : Except Nat (Response β) :=
  match t with
  | .ok r => if isSuccess r.status then .ok r else .error r.status
  | .err => .error 0

/-- `send_http_request_single_attempt` (`src/connection.rs` lines
78-116): builds the request from method, URL, credentials and
parameters, performs exactly one network call, and classifies the
outcome.  Returns the classified result, the next call index, and the
effect trace of the invocation. -/
def send_http_request_single_attempt {β : Type} (serve : Oracle β) (k : Nat)
    (method : HttpMethod) (url : String) (canvas_info : CanvasCredentials)
    (params : List (String × String)) :
    Except Nat (Response β) × Nat × List Effect :=
  let req := buildRequest method url canvas_info params
  (classify (serve k req), k + 1, [Effect.netCall])

/-- Errors of `send_http_request`: a failure message carrying the status
of the last attempt (the `Err(status)` arm), or the message after the
retry loop exits (dead code in the source: the loop always returns from
inside). -/
inductive HttpError where
  | statusFailure (status : Nat)
  | retriesExhausted
deriving DecidableEq

/-- Result of the retry wrapper: classified outcome, next call index,
and the effect trace. -/
structure SendOutcome (β : Type) where
  result : Except HttpError (Response β)
  calls : Nat
  trace : List Effect

/-- `max_attempts` of `send_http_request` (`src/connection.rs` line 136). -/
def max_attempts : Nat := 5

/-- The retry loop of `send_http_request` (`src/connection.rs` lines
139-155), with the loop counter expressed by the remaining number of
iterations: `remaining = max_attempts - attempts`, so the loop guard
`attempts < max_attempts` is `0 < remaining` and the retry guard
`attempts < max_attempts - 1` is `1 < remaining`.  A successful attempt
returns at once; a 403 with attempts remaining sleeps 1000 ms and
retries; any other failing status returns an error carrying it; when the
guard fails the loop exits into the final error (unreachable here, as in
the source, because the last iteration always returns). -/
def send_http_request_go {β : Type} (serve : Oracle β) (method : HttpMethod)
    (url : String) (canvas_info : CanvasCredentials)
    (params : List (String × String)) :
    Nat → Nat → List Effect → SendOutcome β
  | 0, k, tr => ⟨.error .retriesExhausted, k, tr⟩
  | remaining + 1, k, tr =>
    match send_http_request_single_attempt serve k method url canvas_info params with
    | (.ok r, next, e) => ⟨.ok r, next, tr ++ e⟩
    | (.error status, next, e) =>
      if status = 403 ∧ 1 < remaining + 1 then
        send_http_request_go serve method url canvas_info params remaining next
          (tr ++ e ++ [Effect.sleepMs 1000])
      else ⟨.error (.statusFailure status), next, tr ++ e⟩

/-- `send_http_request` (`src/connection.rs` lines 129-162): the retry
loop started with `attempts = 0`, i.e. `max_attempts` remaining
iterations, an empty effect trace, at call index `k`. -/
def send_http_request {β : Type} (serve : Oracle β) (method : HttpMethod)
    (url : String) (canvas_info : CanvasCredentials)
    (params : List (String × String)) (k : Nat) : SendOutcome β :=
  send_http_request_go serve method url canvas_info params max_attempts k []

/-- The effect trace of a run of the retry loop that performed
`n + 1` attempts: a network call, then for each retry a 1000 ms sleep
followed by the next network call. -/
def retryTrace : Nat → List Effect
  | 0 => [Effect.netCall]
  | n + 1 => Effect.netCall :: Effect.sleepMs 1000 :: retryTrace n

/-- A classified outcome is a success only when the response status is
2xx: the dispatcher never lets a non-2xx response through as `ok`. -/
lemma classify_ok_isSuccess {β : Type} {t : TransportResult β} {r : Response β}
    (h : classify t = Except.ok r) : isSuccess r.status = true := by
  cases t with
  | ok r2 =>
    unfold classify at h
    by_cases hs : isSuccess r2.status
    · simp [hs] at h
      rw [← h]
      exact hs
    · simp [hs] at h
  | err => simp [classify] at h

/-- Any `ok` result of the retry loop carries a 2xx response, at every
loop state. -/
lemma go_ok_isSuccess {β : Type} (serve : Oracle β) (method : HttpMethod)
    (url : String) (info : CanvasCredentials) (params : List (String × String)) :
    ∀ n k tr r, (send_http_request_go serve method url info params n k tr).result = Except.ok r →
      isSuccess r.status = true := by
  intro n
  induction n with
  | zero =>
    intro k tr r h
    simp [send_http_request_go] at h
  | succ m ih =>
    intro k tr r h
    rw [send_http_request_go] at h
    cases hc : classify (serve k (buildRequest method url info params)) with
    | ok r2 =>
      simp [send_http_request_single_attempt, hc] at h
      rw [← h]
      exact classify_ok_isSuccess hc
    | error s =>
      simp only [send_http_request_single_attempt, hc] at h
      split at h
      · exact ih _ _ r h
      · simp at h

/-- Behaviour of the retry loop when every remaining attempt is answered
with status 403: it performs all `n` remaining attempts, sleeping
between consecutive attempts, and returns the 403 failure. -/
lemma go_all_403 {β : Type} (serve : Oracle β) (method : HttpMethod)
    (url : String) (info : CanvasCredentials) (params : List (String × String)) :
    ∀ n k tr, 0 < n →
      (∀ i, i < n → classify (serve (k + i) (buildRequest method url info params)) =
        Except.error 403) →
      send_http_request_go serve method url info params n k tr =
        ⟨Except.error (HttpError.statusFailure 403), k + n, tr ++ retryTrace (n - 1)⟩ := by
  intro n
  induction n with
  | zero =>
    intro k tr h
    omega
  | succ m ih =>
    intro k tr _ h403
    have h0 : classify (serve k (buildRequest method url info params)) = Except.error 403 := by
      have := h403 0 (Nat.succ_pos m)
      simpa using this
    rw [send_http_request_go]
    cases m with
    | zero =>
      simp [send_http_request_single_attempt, h0, retryTrace]
    | succ m2 =>
      simp only [send_http_request_single_attempt, h0]
      split
      · have hrec := ih (k + 1) (tr ++ [Effect.netCall] ++ [Effect.sleepMs 1000])
          (Nat.succ_pos m2)
          (fun i hi => by
            have := h403 (i + 1) (by omega)
            simpa [Nat.add_assoc, Nat.add_comm 1 i] using this)
        rw [hrec]
        simp [retryTrace, List.append_assoc]
        omega
      · next hguard =>
        exact absurd ⟨trivial, by omega⟩ hguard

/-- Behaviour of the retry loop when the first `j` attempts are answered
with status 403 and attempt `j + 1` succeeds, with enough iterations
remaining: it returns the success after exactly `j + 1` attempts. -/
lemma go_ok_after_403 {β : Type} (serve : Oracle β) (method : HttpMethod)
    (url : String) (info : CanvasCredentials) (params : List (String × String)) :
    ∀ j n k tr r, j < n →
      (∀ i, i < j → classify (serve (k + i) (buildRequest method url info params)) =
        Except.error 403) →
      classify (serve (k + j) (buildRequest method url info params)) = Except.ok r →
      send_http_request_go serve method url info params n k tr =
        ⟨Except.ok r, k + j + 1, tr ++ retryTrace j⟩ := by
  intro j
  induction j with
  | zero =>
    intro n k tr r hj _ hok
    cases n with
    | zero => omega
    | succ m =>
      rw [send_http_request_go]
      have hok0 : classify (serve k (buildRequest method url info params)) = Except.ok r := by
        simpa using hok
      simp [send_http_request_single_attempt, hok0, retryTrace]
  | succ j2 ih =>
    intro n k tr r hj h403 hok
    cases n with
    | zero => omega
    | succ m =>
      rw [send_http_request_go]
      have h0 : classify (serve k (buildRequest method url info params)) = Except.error 403 := by
        have := h403 0 (Nat.succ_pos j2)
        simpa using this
      simp only [send_http_request_single_attempt, h0]
      split
      · have hrec := ih m (k + 1) (tr ++ [Effect.netCall] ++ [Effect.sleepMs 1000]) r
          (by omega)
          (fun i hi => by
            have := h403 (i + 1) (by omega)
            simpa [Nat.add_assoc, Nat.add_comm 1 i] using this)
          (by
            have := hok
            simpa [Nat.add_assoc, Nat.add_comm 1 j2] using this)
        rw [hrec]
        simp [retryTrace, List.append_assoc]
        omega
      · next hguard =>
        exact absurd ⟨trivial, by omega⟩ hguard

/-- C1: when the dispatcher persistently reports HTTP status 403,
`send_http_request` invokes the dispatcher exactly `max_attempts = 5`
times (call index advances from `k` to `k + 5`, trace `retryTrace 4` has
five network calls), sleeps the fixed 1000 ms delay between consecutive
attempts, and returns an error; and when the first `j` outcomes are 403
and attempt `j + 1` (with `j + 1 ≤ 5`) succeeds, it returns that success
after exactly `j + 1` dispatcher invocations. -/
theorem send_http_request_retry_bound_on_403 {β : Type} (serve : Oracle β)
    (method : HttpMethod) (url : String) (info : CanvasCredentials)
    (params : List (String × String)) (k : Nat) :
    ((∀ i, i < max_attempts →
        classify (serve (k + i) (buildRequest method url info params)) = Except.error 403) →
      send_http_request serve method url info params k =
        ⟨Except.error (HttpError.statusFailure 403), k + max_attempts,
          retryTrace (max_attempts - 1)⟩)
    ∧ (∀ j r, j < max_attempts →
        (∀ i, i < j →
          classify (serve (k + i) (buildRequest method url info params)) = Except.error 403) →
        classify (serve (k + j) (buildRequest method url info params)) = Except.ok r →
        send_http_request serve method url info params k =
          ⟨Except.ok r, k + j + 1, retryTrace j⟩) := by
  constructor
  · intro h403
    have := go_all_403 serve method url info params max_attempts k []
      (by simp [max_attempts]) h403
    simpa [send_http_request] using this
  · intro j r hj h403 hok
    have := go_ok_after_403 serve method url info params j max_attempts k [] r hj h403 hok
    simpa [send_http_request] using this

/-- A server that answers 403 to every request. -/
def serveAll403 : Oracle Unit :=
  fun _ _ => TransportResult.ok ⟨403, ()⟩

/-- A server that answers 403 to the first three requests and 200 from
the fourth request on. -/
def serve403ThenOk : Oracle Unit :=
  fun n _ => if n < 3 then TransportResult.ok ⟨403, ()⟩ else TransportResult.ok ⟨200, ()⟩

/-- Example credentials used to instantiate the theorems. -/
def sampleCredentials : CanvasCredentials :=
  ⟨"https://canvas.test/api/v1", "token"⟩

/-- Witness for C1: against the all-403 server the wrapper makes five
calls and fails; against the 403-403-403-200 server it succeeds on the
fourth call. -/
theorem send_http_request_retry_bound_on_403_witness :
    send_http_request serveAll403 HttpMethod.get "https://canvas.test/api/v1/courses"
        sampleCredentials [] 0 =
      ⟨Except.error (HttpError.statusFailure 403), 5, retryTrace 4⟩
    ∧ send_http_request serve403ThenOk HttpMethod.get "https://canvas.test/api/v1/courses"
        sampleCredentials [] 0 =
      ⟨Except.ok ⟨200, ()⟩, 4, retryTrace 3⟩ := by
  constructor
  · exact (send_http_request_retry_bound_on_403 serveAll403 HttpMethod.get
      "https://canvas.test/api/v1/courses" sampleCredentials [] 0).1
      (fun i _ => rfl)
  · exact (send_http_request_retry_bound_on_403 serve403ThenOk HttpMethod.get
      "https://canvas.test/api/v1/courses" sampleCredentials [] 0).2 3 ⟨200, ()⟩
      (by simp [max_attempts])
      (fun i hi => by interval_cases i <;> rfl)
      rfl

/-- C2: when the first dispatcher outcome is a failure with a status
other than 403 (including the transport sentinel 0), `send_http_request`
returns an error carrying that status after exactly one dispatcher
invocation (call index advances by one, trace is a single network call,
no sleep). -/
theorem send_http_request_no_retry_on_other_status {β : Type} (serve : Oracle β)
    (method : HttpMethod) (url : String) (info : CanvasCredentials)
    (params : List (String × String)) (k : Nat) (s : Nat)
    (hfail : classify (serve k (buildRequest method url info params)) = Except.error s)
    (hs : s ≠ 403) :
    send_http_request serve method url info params k =
      ⟨Except.error (HttpError.statusFailure s), k + 1, [Effect.netCall]⟩ := by
  rw [send_http_request, max_attempts, send_http_request_go]
  simp only [send_http_request_single_attempt, hfail]
  split
  · next hguard => exact absurd hguard.1 hs
  · simp

/-- A server that answers 404 to every request. -/
def serveAll404 : Oracle Unit :=
  fun _ _ => TransportResult.ok ⟨404, ()⟩

/-- Witness for C2: against the all-404 server the wrapper fails after a
single call carrying status 404. -/
theorem send_http_request_no_retry_on_other_status_witness :
    send_http_request serveAll404 HttpMethod.get "https://canvas.test/api/v1/courses"
        sampleCredentials [] 0 =
      ⟨Except.error (HttpError.statusFailure 404), 1, [Effect.netCall]⟩ :=
  send_http_request_no_retry_on_other_status serveAll404 HttpMethod.get
    "https://canvas.test/api/v1/courses" sampleCredentials [] 0 404 rfl (by decide)

/-- C7: each dispatcher invocation performs exactly one network call (the
call index advances by one and the trace is one `netCall`), and the
outcome is classified totally: a transport failure yields the sentinel
status 0, a response with non-2xx status yields that status as an error,
and a 2xx response yields success carrying the response. -/
theorem send_single_attempt_total_classification {β : Type} (serve : Oracle β) (k : Nat)
    (method : HttpMethod) (url : String) (info : CanvasCredentials)
    (params : List (String × String)) :
    (send_http_request_single_attempt serve k method url info params).2.1 = k + 1
    ∧ (send_http_request_single_attempt serve k method url info params).2.2 = [Effect.netCall]
    ∧ ((∃ r, serve k (buildRequest method url info params) = TransportResult.ok r
          ∧ isSuccess r.status = true
          ∧ (send_http_request_single_attempt serve k method url info params).1 = Except.ok r)
      ∨ (∃ r, serve k (buildRequest method url info params) = TransportResult.ok r
          ∧ isSuccess r.status = false
          ∧ (send_http_request_single_attempt serve k method url info params).1 =
              Except.error r.status)
      ∨ (serve k (buildRequest method url info params) = TransportResult.err
          ∧ (send_http_request_single_attempt serve k method url info params).1 =
              Except.error 0)) := by
  refine ⟨rfl, rfl, ?_⟩
  cases h : serve k (buildRequest method url info params) with
  | ok r =>
    by_cases hs : isSuccess r.status
    · exact Or.inl ⟨r, rfl, hs, by simp [send_http_request_single_attempt, classify, h, hs]⟩
    · refine Or.inr (Or.inl ⟨r, rfl, by simpa using hs, ?_⟩)
      simp [send_http_request_single_attempt, classify, h, hs]
  | err =>
    exact Or.inr (Or.inr ⟨rfl, by simp [send_http_request_single_attempt, classify, h]⟩)

/-- C8: every built request carries the bearer authorization header
derived from the credentials; GET and DELETE requests carry the supplied
query parameters and no JSON body; PUT and POST requests carry the JSON
body and no query parameters. -/
theorem buildRequest_auth_query_body (url : String) (info : CanvasCredentials)
    (params : List (String × String)) :
    (∀ method, ("Authorization", "Bearer " ++ info.token_canvas) ∈
      (buildRequest method url info params).headers)
    ∧ (buildRequest HttpMethod.get url info params).query = params
    ∧ (buildRequest HttpMethod.get url info params).jsonBody = none
    ∧ (buildRequest HttpMethod.delete url info params).query = params
    ∧ (buildRequest HttpMethod.delete url info params).jsonBody = none
    ∧ (∀ body, (buildRequest (HttpMethod.put body) url info params).jsonBody = some body
        ∧ (buildRequest (HttpMethod.put body) url info params).query = [])
    ∧ (∀ body, (buildRequest (HttpMethod.post body) url info params).jsonBody = some body
        ∧ (buildRequest (HttpMethod.post body) url info params).query = []) := by
  refine ⟨?_, rfl, rfl, rfl, rfl, fun body => ⟨rfl, rfl⟩, fun body => ⟨rfl, rfl⟩⟩
  intro method
  cases method <;>
    simp [buildRequest, newRequest, RequestBuilder.bearer_auth, RequestBuilder.addQuery,
      RequestBuilder.json]

/-- The count of semaphore operations in the trace of the retry loop
equals the count already in the accumulator: no iteration ever adds a
semaphore operation. -/
lemma go_trace_no_semOp {β : Type} (serve : Oracle β) (method : HttpMethod)
    (url : String) (info : CanvasCredentials) (params : List (String × String)) :
    ∀ n k tr, ((send_http_request_go serve method url info params n k tr).trace.countP
        (fun e => e.isSemOp)) = tr.countP (fun e => e.isSemOp) := by
  intro n
  induction n with
  | zero => intro k tr; rfl
  | succ m ih =>
    intro k tr
    rw [send_http_request_go]
    cases hc : classify (serve k (buildRequest method url info params)) with
    | ok r =>
      simp [send_http_request_single_attempt, hc, List.countP_append, Effect.isSemOp]
    | error s =>
      simp only [send_http_request_single_attempt, hc]
      split
      · rw [ih]
        simp [List.countP_append, Effect.isSemOp]
      · simp [List.countP_append, Effect.isSemOp]

/-- C3 (observed code): a dispatched request attempt performs exactly one
network call and no semaphore operation; the whole retry wrapper also
performs no semaphore operation on any path, even though the global
semaphore is declared with capacity 20.  The source declares `SEMAPHORE`
(`src/connection.rs` line 66) and never acquires or releases it. -/
theorem dispatcher_touches_no_semaphore {β : Type} (serve : Oracle β) (k : Nat)
    (method : HttpMethod) (url : String) (info : CanvasCredentials)
    (params : List (String × String)) :
    (send_http_request_single_attempt serve k method url info params).2.2 = [Effect.netCall]
    ∧ ((send_http_request serve method url info params k).trace.countP
        (fun e => e.isSemOp)) = 0
    ∧ SEMAPHORE_initial_permits = 20 := by
  refine ⟨rfl, ?_, rfl⟩
  rw [send_http_request]
  rw [go_trace_no_semOp]
  rfl

/-- A Canvas course as the mapper constructs it (`src/course.rs`,
`CourseInfo`): the fields the JSON mapper must extract.  The shared
credential handle, the regex-derived abbreviated name and the two caches
of the source structure are bookkeeping attached after extraction and
are not modelled. -/
structure Course where
  id : Nat
  name : String
  course_code : String

/-- `convert_json_to_course` (`src/canvas.rs` lines 252-270): requires a
numeric `id`, a string `name` and a string `course_code`; any missing or
mistyped field makes the mapping return `none`.  The credential
parameter mirrors the source signature (the source stores a shared
handle to it in the built course). -/
def convert_json_to_course (canvas_info : CanvasCredentials) (course : Json) : Option Course := do
  let id ← (course.index "id").as_u64
  let name ← (course.index "name").as_str
  let course_code ← (course.index "course_code").as_str
  some ⟨id, name, course_code⟩

/-- Course information as `fetch_students` consumes it (`src/course.rs`,
`CourseInfo`): course id and the credential handle (name and code kept
for completeness). -/
structure CourseInfo where
  id : Nat
  name : String
  course_code : String
  canvas_info : CanvasCredentials

/-- A Canvas student as the mapper constructs it (`src/student.rs`). -/
structure Student where
  id : Nat
  name : String
  email : String

/-- `convert_json_to_student` (`src/canvas.rs` lines 826-841): requires a
numeric `id`, a string `name` and a string `email`; any missing or
mistyped field makes the mapping return `none`. -/
def convert_json_to_student (course_info : CourseInfo) (student : Json) : Option Student := do
  let id ← (student.index "id").as_u64
  let name ← (student.index "name").as_str
  let email ← (student.index "email").as_str
  some ⟨id, name, email⟩

/-- The response body as `fetch_courses_with_credentials` consumes it:
`response.text()` may fail, then `serde_json::from_str::<Vec<Value>>`
may fail, otherwise the body is a list of JSON elements. -/
inductive BodyOutcome where
  | textErr (e : String)
  | parseErr (e : String)
  | elems (courses : List Json)

/-- Error cases of `fetch_courses_with_credentials`; each constructor
stands for one of the formatted messages of the source. -/
inductive CoursesError where
  | parseJson (e : String)
  | readText (e : String)
  | fetchStatus (status : Nat)

/-- The result enum of `fetch_courses_with_credentials`
(`src/canvas.rs`): success with the course list, a credential error, or
a connection error carrying the retry-wrapper failure. -/
inductive CanvasResultCourses where
  | Ok (courses : List Course)
  | ErrCredentials (e : CoursesError)
  | ErrConnection (e : HttpError)

/-- The pagination loop of `fetch_courses_with_credentials`
(`src/canvas.rs` lines 105-176), with explicit fuel: each iteration
issues a GET for the current page through the retry wrapper; an empty
parsed page stops the loop with the accumulated courses; a non-empty
page is mapped element-wise (unmappable elements are dropped by
`filterMap`) and appended, and the page number is incremented; a failed
text read or JSON parse, a non-2xx status, or a retry-wrapper failure
stops the loop with the corresponding error.  A `none` result means the
fuel ran out while the loop was still iterating. -/
def fetch_courses_go (serve : Oracle BodyOutcome) (info : CanvasCredentials) :
    Nat → Nat → List Course → Nat → List Effect →
    Option (CanvasResultCourses × Nat × List Effect)
  | 0, _, _, _, _ => none
  | fuel + 1, page, all_courses, k, tr =>
    let url := info.url_canvas ++ "/courses"
    let params := [("enrollment_role", "TeacherEnrollment"),
                   ("page", toString page), ("per_page", "100")]
    match send_http_request serve HttpMethod.get url info params k with
    | ⟨Except.ok response, next, e⟩ =>
      if isSuccess response.status then
        match response.payload with
        | BodyOutcome.elems courses =>
          if courses.isEmpty then
            some (CanvasResultCourses.Ok all_courses, next, tr ++ e)
          else
            fetch_courses_go serve info fuel (page + 1)
              (all_courses ++ courses.filterMap (convert_json_to_course info)) next (tr ++ e)
        | BodyOutcome.parseErr msg =>
          some (CanvasResultCourses.ErrCredentials (CoursesError.parseJson msg), next, tr ++ e)
        | BodyOutcome.textErr msg =>
          some (CanvasResultCourses.ErrCredentials (CoursesError.readText msg), next, tr ++ e)
      else
        some (CanvasResultCourses.ErrCredentials (CoursesError.fetchStatus response.status),
          next, tr ++ e)
    | ⟨Except.error err, next, e⟩ =>
      some (CanvasResultCourses.ErrConnection err, next, tr ++ e)

/-- `fetch_courses_with_credentials`: the loop started at page 1 with an
empty accumulator. -/
def fetch_courses_with_credentials (serve : Oracle BodyOutcome) (info : CanvasCredentials)
    (fuel : Nat) (k : Nat) : Option (CanvasResultCourses × Nat × List Effect) :=
  fetch_courses_go serve info fuel 1 [] k []

/-- Error cases of `get_all_submissions`: a propagated JSON
deserialization error, a non-2xx status, or a retry-wrapper failure. -/
inductive SubmissionsError where
  | jsonErr (e : String)
  | fetchStatus (status : Nat)
  | fetchError (e : HttpError)

/-- The pagination loop of `get_all_submissions` (`src/canvas.rs` lines
673-734), with explicit fuel: each iteration issues a GET for the
current page (adding the `grouped` parameter when requested and the
`include[]` parameter always); an empty page stops the loop with the
accumulated submissions; a non-empty page is appended unmapped; a JSON
error propagates, a non-2xx status or a retry-wrapper failure stops the
loop with an error. -/
def get_all_submissions_go (serve : Oracle (Except String (List Json)))
    (canvas_info : CanvasCredentials) (course_id : Nat) (assignment_id : Nat)
    (group_submissions : Bool) :
    Nat → Nat → List Json → Nat → List Effect →
    Option (Except SubmissionsError (List Json) × Nat × List Effect)
  | 0, _, _, _, _ => none
  | fuel + 1, page, all_submissions, k, tr =>
    let url := canvas_info.url_canvas ++ "/courses/" ++ toString course_id ++
      "/assignments/" ++ toString assignment_id ++ "/submissions"
    let baseParams := [("page", toString page), ("per_page", "100")]
    let groupedParams := if group_submissions then baseParams ++ [("grouped", "true")]
      else baseParams
    let params := groupedParams ++ [("include[]", "submission_comments")]
    match send_http_request serve HttpMethod.get url canvas_info params k with
    | ⟨Except.ok response, next, e⟩ =>
      if isSuccess response.status then
        match response.payload with
        | Except.ok submissions_page =>
          if submissions_page.isEmpty then
            some (Except.ok all_submissions, next, tr ++ e)
          else
            get_all_submissions_go serve canvas_info course_id assignment_id group_submissions
              fuel (page + 1) (all_submissions ++ submissions_page) next (tr ++ e)
        | Except.error msg =>
          some (Except.error (SubmissionsError.jsonErr msg), next, tr ++ e)
      else
        some (Except.error (SubmissionsError.fetchStatus response.status), next, tr ++ e)
    | ⟨Except.error err, next, e⟩ =>
      some (Except.error (SubmissionsError.fetchError err), next, tr ++ e)

/-- `get_all_submissions`: the loop started at page 1 with an empty
accumulator. -/
def get_all_submissions (serve : Oracle (Except String (List Json)))
    (canvas_info : CanvasCredentials) (course_id : Nat) (assignment_id : Nat)
    (group_submissions : Bool) (fuel : Nat) (k : Nat) :
    Option (Except SubmissionsError (List Json) × Nat × List Effect) :=
  get_all_submissions_go serve canvas_info course_id assignment_id group_submissions
    fuel 1 [] k []

/-- Error cases of `fetch_students`: a propagated JSON deserialization
error, a non-2xx status, or a retry-wrapper failure. -/
inductive StudentsError where
  | jsonErr (e : String)
  | fetchStatus (status : Nat)
  | fetchError (e : HttpError)

/-- The pagination loop of `fetch_students` (`src/canvas.rs` lines
816-896), with explicit fuel: each iteration issues a GET for the
current page; an empty page stops the loop with the accumulated
students; a non-empty page is mapped element-wise through
`convert_json_to_student` (unmappable elements are dropped by
`filterMap`) and appended; a JSON error propagates, a non-2xx status or
a retry-wrapper failure stops the loop with an error. -/
def fetch_students_go (serve : Oracle (Except String (List Json))) (course_info : CourseInfo) :
    Nat → Nat → List Student → Nat → List Effect →
    Option (Except StudentsError (List Student) × Nat × List Effect)
  | 0, _, _, _, _ => none
  | fuel + 1, page, all_students, k, tr =>
    let url := course_info.canvas_info.url_canvas ++ "/courses/" ++
      toString course_info.id ++ "/users"
    let params := [("enrollment_type[]", "student"), ("include[]", "email"),
                   ("per_page", "150"), ("page", toString page)]
    match send_http_request serve HttpMethod.get url course_info.canvas_info params k with
    | ⟨Except.ok response, next, e⟩ =>
      if isSuccess response.status then
        match response.payload with
        | Except.ok students_page =>
          if students_page.isEmpty then
            some (Except.ok all_students, next, tr ++ e)
          else
            fetch_students_go serve course_info fuel (page + 1)
              (all_students ++ students_page.filterMap (convert_json_to_student course_info))
              next (tr ++ e)
        | Except.error msg =>
          some (Except.error (StudentsError.jsonErr msg), next, tr ++ e)
      else
        some (Except.error (StudentsError.fetchStatus response.status), next, tr ++ e)
    | ⟨Except.error err, next, e⟩ =>
      some (Except.error (StudentsError.fetchError err), next, tr ++ e)

/-- `fetch_students`: the loop started at page 1 with an empty
accumulator. -/
def fetch_students (serve : Oracle (Except String (List Json))) (course_info : CourseInfo)
    (fuel : Nat) (k : Nat) :
    Option (Except StudentsError (List Student) × Nat × List Effect) :=
  fetch_students_go serve course_info fuel 1 [] k []

/-- When the very first attempt is answered with a 2xx response, the
retry wrapper returns it after one network call. -/
lemma send_first_try_ok {β : Type} (serve : Oracle β) (method : HttpMethod)
    (url : String) (info : CanvasCredentials) (params : List (String × String))
    (k : Nat) (r : Response β)
    (hok : serve k (buildRequest method url info params) = TransportResult.ok r)
    (hs : isSuccess r.status = true) :
    send_http_request serve method url info params k =
      ⟨Except.ok r, k + 1, [Effect.netCall]⟩ := by
  rw [send_http_request, max_attempts, send_http_request_go]
  simp [send_http_request_single_attempt, classify, hok, hs]

/-- When the first attempt fails with a status other than 403, the retry
wrapper fails after one network call, carrying that status. -/
lemma send_fail_fast {β : Type} (serve : Oracle β) (method : HttpMethod)
    (url : String) (info : CanvasCredentials) (params : List (String × String))
    (k : Nat) (s : Nat)
    (hfail : classify (serve k (buildRequest method url info params)) = Except.error s)
    (hs : s ≠ 403) :
    send_http_request serve method url info params k =
      ⟨Except.error (HttpError.statusFailure s), k + 1, [Effect.netCall]⟩ := by
  rw [send_http_request, max_attempts, send_http_request_go]
  simp only [send_http_request_single_attempt, hfail]
  split
  · next hguard => exact absurd hguard.1 hs
  · simp

/-- Any `ok` result of the retry wrapper carries a 2xx response. -/
lemma send_ok_isSuccess {β : Type} {serve : Oracle β} {method : HttpMethod}
    {url : String} {info : CanvasCredentials} {params : List (String × String)}
    {k : Nat} {r : Response β}
    (h : (send_http_request serve method url info params k).result = Except.ok r) :
    isSuccess r.status = true :=
  go_ok_isSuccess serve method url info params max_attempts k [] r h

/-- Run of the `fetch_courses_with_credentials` loop against a mock
server that answers, in call order, the given non-empty pages with
status 200 and then one empty page: it consumes exactly one call per
page plus one for the empty page, and appends the mapped elements of
each page in order. -/
lemma fetch_courses_go_pages (serve : Oracle BodyOutcome) (info : CanvasCredentials) :
    ∀ (pages : List (List Json)) (fuel page : Nat) (acc : List Course) (k : Nat)
      (tr : List Effect),
      (∀ i req, i < pages.length →
        serve (k + i) req = TransportResult.ok ⟨200, BodyOutcome.elems (pages.getD i [])⟩) →
      (∀ req, serve (k + pages.length) req =
        TransportResult.ok ⟨200, BodyOutcome.elems []⟩) →
      pages.all (fun p => !p.isEmpty) = true →
      pages.length < fuel →
      fetch_courses_go serve info fuel page acc k tr =
        some (CanvasResultCourses.Ok
            (acc ++ (pages.map (fun p => p.filterMap (convert_json_to_course info))).join),
          k + pages.length + 1,
          tr ++ List.replicate (pages.length + 1) Effect.netCall) := by
  intro pages
  induction pages with
  | nil =>
    intro fuel page acc k tr _ hlast _ hfuel
    cases fuel with
    | zero => omega
    | succ f =>
      rw [fetch_courses_go]
      rw [send_first_try_ok serve HttpMethod.get (info.url_canvas ++ "/courses") info
        [("enrollment_role", "TeacherEnrollment"), ("page", toString page), ("per_page", "100")]
        k ⟨200, BodyOutcome.elems []⟩ (by simpa using hlast _) rfl]
      simp [isSuccess]
  | cons p ps ih =>
    intro fuel page acc k tr hserve hlast hne hfuel
    cases fuel with
    | zero => omega
    | succ f =>
      simp only [List.all_cons, Bool.and_eq_true] at hne
      simp only [List.length_cons] at hfuel
      have hpne : p.isEmpty = false := by
        cases hp : p.isEmpty
        · rfl
        · simp [hp] at hne
      rw [fetch_courses_go]
      have h0 : serve k (buildRequest HttpMethod.get (info.url_canvas ++ "/courses") info
          [("enrollment_role", "TeacherEnrollment"), ("page", toString page),
            ("per_page", "100")]) = TransportResult.ok ⟨200, BodyOutcome.elems p⟩ := by
        simpa using hserve 0 _ (Nat.succ_pos ps.length)
      rw [send_first_try_ok serve HttpMethod.get (info.url_canvas ++ "/courses") info
        [("enrollment_role", "TeacherEnrollment"), ("page", toString page), ("per_page", "100")]
        k ⟨200, BodyOutcome.elems p⟩ h0 rfl]
      have hrec := ih f (page + 1) (acc ++ p.filterMap (convert_json_to_course info)) (k + 1)
        (tr ++ [Effect.netCall])
        (fun i req hi => by
          have := hserve (i + 1) req (by simpa using Nat.succ_lt_succ hi)
          simpa [Nat.add_assoc, Nat.add_comm 1 i] using this)
        (fun req => by
          have := hlast req
          simpa [Nat.add_assoc, Nat.add_comm 1 ps.length] using this)
        hne.2
        (by omega)
      simp only [isSuccess, hpne]
      simp only [hrec]
      simp [List.append_assoc, List.replicate_succ]
      omega

/-- Run of the `get_all_submissions` loop against a mock server that
answers, in call order, the given non-empty pages with status 200 and
then one empty page: one call per page plus one for the empty page, and
the pages are appended unchanged, in order. -/
lemma get_all_submissions_go_pages (serve : Oracle (Except String (List Json)))
    (info : CanvasCredentials) (course_id : Nat) (assignment_id : Nat) (grouped : Bool) :
    ∀ (pages : List (List Json)) (fuel page : Nat) (acc : List Json) (k : Nat)
      (tr : List Effect),
      (∀ i req, i < pages.length →
        serve (k + i) req = TransportResult.ok ⟨200, Except.ok (pages.getD i [])⟩) →
      (∀ req, serve (k + pages.length) req = TransportResult.ok ⟨200, Except.ok []⟩) →
      pages.all (fun p => !p.isEmpty) = true →
      pages.length < fuel →
      get_all_submissions_go serve info course_id assignment_id grouped fuel page acc k tr =
        some (Except.ok (acc ++ pages.join), k + pages.length + 1,
          tr ++ List.replicate (pages.length + 1) Effect.netCall) := by
  intro pages
  induction pages with
  | nil =>
    intro fuel page acc k tr _ hlast _ hfuel
    cases fuel with
    | zero => omega
    | succ f =>
      rw [get_all_submissions_go]
      rw [send_first_try_ok serve HttpMethod.get _ info _ k ⟨200, Except.ok []⟩
        (by simpa using hlast _) rfl]
      simp [isSuccess]
  | cons p ps ih =>
    intro fuel page acc k tr hserve hlast hne hfuel
    cases fuel with
    | zero => omega
    | succ f =>
      simp only [List.all_cons, Bool.and_eq_true] at hne
      simp only [List.length_cons] at hfuel
      have hpne : p.isEmpty = false := by
        cases hp : p.isEmpty
        · rfl
        · simp [hp] at hne
      rw [get_all_submissions_go]
      rw [send_first_try_ok serve HttpMethod.get _ info _ k ⟨200, Except.ok p⟩
        (by simpa using hserve 0 _ (Nat.succ_pos ps.length)) rfl]
      have hrec := ih f (page + 1) (acc ++ p) (k + 1) (tr ++ [Effect.netCall])
        (fun i req hi => by
          have := hserve (i + 1) req (by simpa using Nat.succ_lt_succ hi)
          simpa [Nat.add_assoc, Nat.add_comm 1 i] using this)
        (fun req => by
          have := hlast req
          simpa [Nat.add_assoc, Nat.add_comm 1 ps.length] using this)
        hne.2
        (by omega)
      simp only [isSuccess, hpne]
      simp only [hrec]
      simp [List.append_assoc, List.replicate_succ]
      omega

/-- Run of the `fetch_students` loop against a mock server that answers,
in call order, the given non-empty pages with status 200 and then one
empty page: one call per page plus one for the empty page, and the
mapped elements of each page are appended in order, unmappable elements
dropped. -/
lemma fetch_students_go_pages (serve : Oracle (Except String (List Json)))
    (course_info : CourseInfo) :
    ∀ (pages : List (List Json)) (fuel page : Nat) (acc : List Student) (k : Nat)
      (tr : List Effect),
      (∀ i req, i < pages.length →
        serve (k + i) req = TransportResult.ok ⟨200, Except.ok (pages.getD i [])⟩) →
      (∀ req, serve (k + pages.length) req = TransportResult.ok ⟨200, Except.ok []⟩) →
      pages.all (fun p => !p.isEmpty) = true →
      pages.length < fuel →
      fetch_students_go serve course_info fuel page acc k tr =
        some (Except.ok
            (acc ++ (pages.map (fun p => p.filterMap (convert_json_to_student course_info))).join),
          k + pages.length + 1,
          tr ++ List.replicate (pages.length + 1) Effect.netCall) := by
  intro pages
  induction pages with
  | nil =>
    intro fuel page acc k tr _ hlast _ hfuel
    cases fuel with
    | zero => omega
    | succ f =>
      rw [fetch_students_go]
      rw [send_first_try_ok serve HttpMethod.get _ course_info.canvas_info _ k
        ⟨200, Except.ok []⟩ (by simpa using hlast _) rfl]
      simp [isSuccess]
  | cons p ps ih =>
    intro fuel page acc k tr hserve hlast hne hfuel
    cases fuel with
    | zero => omega
    | succ f =>
      simp only [List.all_cons, Bool.and_eq_true] at hne
      simp only [List.length_cons] at hfuel
      have hpne : p.isEmpty = false := by
        cases hp : p.isEmpty
        · rfl
        · simp [hp] at hne
      rw [fetch_students_go]
      rw [send_first_try_ok serve HttpMethod.get _ course_info.canvas_info _ k
        ⟨200, Except.ok p⟩ (by simpa using hserve 0 _ (Nat.succ_pos ps.length)) rfl]
      have hrec := ih f (page + 1)
        (acc ++ p.filterMap (convert_json_to_student course_info)) (k + 1)
        (tr ++ [Effect.netCall])
        (fun i req hi => by
          have := hserve (i + 1) req (by simpa using Nat.succ_lt_succ hi)
          simpa [Nat.add_assoc, Nat.add_comm 1 i] using this)
        (fun req => by
          have := hlast req
          simpa [Nat.add_assoc, Nat.add_comm 1 ps.length] using this)
        hne.2
        (by omega)
      simp only [isSuccess, hpne]
      simp only [hrec]
      simp [List.append_assoc, List.replicate_succ]
      omega

/-- Against a server that answers every call with a 200 response and a
non-empty page, the `fetch_courses_with_credentials` loop never
terminates: it exhausts any amount of fuel. -/
lemma fetch_courses_go_nonempty_forever (serve : Oracle BodyOutcome)
    (info : CanvasCredentials) (pageContent : Nat → List Json)
    (hne : ∀ n, (pageContent n).isEmpty = false)
    (hserve : ∀ n req, serve n req =
      TransportResult.ok ⟨200, BodyOutcome.elems (pageContent n)⟩) :
    ∀ fuel page acc k tr, fetch_courses_go serve info fuel page acc k tr = none := by
  intro fuel
  induction fuel with
  | zero => intro page acc k tr; rfl
  | succ f ih =>
    intro page acc k tr
    rw [fetch_courses_go]
    rw [send_first_try_ok serve HttpMethod.get _ info _ k
      ⟨200, BodyOutcome.elems (pageContent k)⟩ (hserve k _) rfl]
    simp [isSuccess, hne k, ih]

/-- Against a server whose answer at call `k` is a 200 response with a
JSON parse failure, the `fetch_courses_with_credentials` loop stops at
once with the parse error. -/
lemma fetch_courses_go_parse_error (serve : Oracle BodyOutcome) (info : CanvasCredentials)
    (msg : String) (fuel page : Nat) (acc : List Course) (k : Nat) (tr : List Effect)
    (hserve : ∀ req, serve k req = TransportResult.ok ⟨200, BodyOutcome.parseErr msg⟩) :
    fetch_courses_go serve info (fuel + 1) page acc k tr =
      some (CanvasResultCourses.ErrCredentials (CoursesError.parseJson msg), k + 1,
        tr ++ [Effect.netCall]) := by
  rw [fetch_courses_go]
  rw [send_first_try_ok serve HttpMethod.get _ info _ k
    ⟨200, BodyOutcome.parseErr msg⟩ (hserve _) rfl]
  simp [isSuccess]

/-- Against a server whose answer at call `k` is a failing status other
than 403 (here any non-2xx, non-403 status), the
`fetch_courses_with_credentials` loop stops at once with a connection
error carrying the retry-wrapper failure. -/
lemma fetch_courses_go_request_error (serve : Oracle BodyOutcome) (info : CanvasCredentials)
    (s : Nat) (b : BodyOutcome) (fuel page : Nat) (acc : List Course) (k : Nat)
    (tr : List Effect)
    (hserve : ∀ req, serve k req = TransportResult.ok ⟨s, b⟩)
    (hs : isSuccess s = false) (hs403 : s ≠ 403) :
    fetch_courses_go serve info (fuel + 1) page acc k tr =
      some (CanvasResultCourses.ErrConnection (HttpError.statusFailure s), k + 1,
        tr ++ [Effect.netCall]) := by
  rw [fetch_courses_go]
  rw [send_fail_fast serve HttpMethod.get _ info _ k s
    (by simp [classify, hserve _, hs]) hs403]

/-- The `ErrCredentials` branch of `fetch_courses_with_credentials` that
formats the response status is unreachable: the retry wrapper only
returns responses whose status is 2xx, so the in-loop status re-check
never fails. -/
lemma fetch_courses_go_no_fetchStatus (serve : Oracle BodyOutcome) (info : CanvasCredentials) :
    ∀ fuel page acc k tr s n e,
      fetch_courses_go serve info fuel page acc k tr ≠
        some (CanvasResultCourses.ErrCredentials (CoursesError.fetchStatus s), n, e) := by
  intro fuel
  induction fuel with
  | zero =>
    intro page acc k tr s n e
    simp [fetch_courses_go]
  | succ f ih =>
    intro page acc k tr s n e
    rw [fetch_courses_go]
    rcases hres : (send_http_request serve HttpMethod.get (info.url_canvas ++ "/courses") info
        [("enrollment_role", "TeacherEnrollment"), ("page", toString page),
          ("per_page", "100")] k)
      with ⟨res, next, eff⟩
    cases res with
    | error err => simp
    | ok r =>
      have hsucc : isSuccess r.status = true := send_ok_isSuccess (by rw [hres])
      cases hp : r.payload with
      | elems courses =>
        cases hemp : courses.isEmpty
        · simp only [hsucc, hp, hemp]
          simp only [if_true, Bool.false_eq_true, if_false]
          exact ih _ _ _ _ _ _ _
        · simp [hsucc, hp, hemp]
      | parseErr msg => simp [hsucc, hp]
      | textErr msg => simp [hsucc, hp]

/-- The non-2xx branch of `get_all_submissions` that formats the response
status is likewise unreachable. -/
lemma get_all_submissions_go_no_fetchStatus (serve : Oracle (Except String (List Json)))
    (info : CanvasCredentials) (course_id : Nat) (assignment_id : Nat) (grouped : Bool) :
    ∀ fuel page acc k tr s n e,
      get_all_submissions_go serve info course_id assignment_id grouped fuel page acc k tr ≠
        some (Except.error (SubmissionsError.fetchStatus s), n, e) := by
  intro fuel
  induction fuel with
  | zero =>
    intro page acc k tr s n e
    simp [get_all_submissions_go]
  | succ f ih =>
    intro page acc k tr s n e
    rw [get_all_submissions_go]
    rcases hres : (send_http_request serve HttpMethod.get
        (info.url_canvas ++ "/courses/" ++ toString course_id ++ "/assignments/" ++
          toString assignment_id ++ "/submissions") info
        ((if grouped = true then
            [("page", toString page), ("per_page", "100")] ++ [("grouped", "true")]
          else [("page", toString page), ("per_page", "100")]) ++
          [("include[]", "submission_comments")]) k)
      with ⟨res, next, eff⟩
    cases res with
    | error err => simp
    | ok r =>
      have hsucc : isSuccess r.status = true := send_ok_isSuccess (by rw [hres])
      cases hp : r.payload with
      | ok submissions_page =>
        cases hemp : submissions_page.isEmpty
        · simp only [hsucc, hp, hemp]
          simp only [if_true, Bool.false_eq_true, if_false]
          exact ih _ _ _ _ _ _ _
        · simp [hsucc, hp, hemp]
      | error msg => simp [hsucc, hp]

/-- C4: against a mock server answering N non-empty pages followed by one
empty page, `get_all_submissions` issues exactly N + 1 requests (call
index advances by N + 1, trace is N + 1 network calls) and returns
exactly the elements of the N non-empty pages, in order. -/
theorem get_all_submissions_page_count_and_elements
    (serve : Oracle (Except String (List Json))) (info : CanvasCredentials)
    (course_id : Nat) (assignment_id : Nat) (grouped : Bool)
    (pages : List (List Json)) (fuel k : Nat)
    (hserve : ∀ i req, i < pages.length →
      serve (k + i) req = TransportResult.ok ⟨200, Except.ok (pages.getD i [])⟩)
    (hlast : ∀ req, serve (k + pages.length) req = TransportResult.ok ⟨200, Except.ok []⟩)
    (hne : pages.all (fun p => !p.isEmpty) = true)
    (hfuel : pages.length < fuel) :
    get_all_submissions serve info course_id assignment_id grouped fuel k =
      some (Except.ok pages.join, k + pages.length + 1,
        List.replicate (pages.length + 1) Effect.netCall) := by
  have h := get_all_submissions_go_pages serve info course_id assignment_id grouped pages
    fuel 1 [] k [] hserve hlast hne hfuel
  simpa [get_all_submissions] using h

/-- Mock pages for the C4 witness: two non-empty pages. -/
def subsPages : List (List Json) := [[Json.num 1, Json.num 2], [Json.num 3]]

/-- Mock server for the C4 witness: answers page contents by call order,
empty from the third call on. -/
def serveSubsPages : Oracle (Except String (List Json)) :=
  fun n _ => TransportResult.ok ⟨200, Except.ok (subsPages.getD n [])⟩

/-- Witness for C4: two pages of sizes 2 and 1 produce the three
elements in order after exactly three requests. -/
theorem get_all_submissions_page_count_and_elements_witness :
    get_all_submissions serveSubsPages sampleCredentials 10 20 false 3 0 =
      some (Except.ok [Json.num 1, Json.num 2, Json.num 3], 3,
        List.replicate 3 Effect.netCall) :=
  get_all_submissions_page_count_and_elements serveSubsPages sampleCredentials 10 20 false
    subsPages 3 0
    (by
      intro i req hi
      have h2 : i < 2 := by simpa [subsPages] using hi
      interval_cases i <;> rfl)
    (fun req => rfl)
    rfl
    (by decide)

/-- C5: the accumulated result of the `fetch_courses_with_credentials`
paginator is the concatenation, in page order, of the element-wise
mapped pages, each page mapped in element order: the paginator never
reorders pages or elements. -/
theorem fetch_courses_order_preserving (serve : Oracle BodyOutcome)
    (info : CanvasCredentials) (pages : List (List Json)) (fuel k : Nat)
    (hserve : ∀ i req, i < pages.length →
      serve (k + i) req = TransportResult.ok ⟨200, BodyOutcome.elems (pages.getD i [])⟩)
    (hlast : ∀ req, serve (k + pages.length) req =
      TransportResult.ok ⟨200, BodyOutcome.elems []⟩)
    (hne : pages.all (fun p => !p.isEmpty) = true)
    (hfuel : pages.length < fuel) :
    fetch_courses_with_credentials serve info fuel k =
      some (CanvasResultCourses.Ok
          ((pages.map (fun p => p.filterMap (convert_json_to_course info))).join),
        k + pages.length + 1,
        List.replicate (pages.length + 1) Effect.netCall) := by
  have h := fetch_courses_go_pages serve info pages fuel 1 [] k [] hserve hlast hne hfuel
  simpa [fetch_courses_with_credentials] using h

/-- Mock pages for the C5 witness: two pages of course objects. -/
def coursesPages : List (List Json) :=
  [[Json.obj [("id", Json.num 1), ("name", Json.str "Course A"), ("course_code", Json.str "CA")],
    Json.obj [("id", Json.num 2), ("name", Json.str "Course B"), ("course_code", Json.str "CB")]],
   [Json.obj [("id", Json.num 3), ("name", Json.str "Course C"), ("course_code", Json.str "CC")]]]

/-- Mock server for the C5 witness. -/
def serveCoursesPages : Oracle BodyOutcome :=
  fun n _ => TransportResult.ok ⟨200, BodyOutcome.elems (coursesPages.getD n [])⟩

/-- Witness for C5: the three courses come back in page order and
within-page order. -/
theorem fetch_courses_order_preserving_witness :
    fetch_courses_with_credentials serveCoursesPages sampleCredentials 3 0 =
      some (CanvasResultCourses.Ok
          [⟨1, "Course A", "CA"⟩, ⟨2, "Course B", "CB"⟩, ⟨3, "Course C", "CC"⟩],
        3, List.replicate 3 Effect.netCall) :=
  fetch_courses_order_preserving serveCoursesPages sampleCredentials coursesPages 3 0
    (by
      intro i req hi
      have h2 : i < 2 := by simpa [coursesPages] using hi
      interval_cases i <;> rfl)
    (fun req => rfl)
    rfl
    (by decide)

/-- C6: the `fetch_courses_with_credentials` loop terminates exactly on
an empty page or a fatal failure.  Conjuncts: (1) against a server whose
every answer is a 200 with a non-empty page the loop exhausts any fuel
(unbounded iteration, no page bound exists); (2) an empty page stops the
loop at once with the accumulated result; (3) a whole-page parse failure
stops it with the parse error; (4) a failing request (non-2xx, non-403
status, which the retry wrapper turns into an error) stops it with a
connection error. -/
theorem fetch_courses_termination_characterisation (info : CanvasCredentials) :
    (∀ (serve : Oracle BodyOutcome) (pageContent : Nat → List Json),
      (∀ n, (pageContent n).isEmpty = false) →
      (∀ n req, serve n req = TransportResult.ok ⟨200, BodyOutcome.elems (pageContent n)⟩) →
      ∀ fuel page acc k tr, fetch_courses_go serve info fuel page acc k tr = none)
    ∧ (∀ (serve : Oracle BodyOutcome) (fuel page : Nat) (acc : List Course) (k : Nat)
        (tr : List Effect),
      (∀ req, serve k req = TransportResult.ok ⟨200, BodyOutcome.elems []⟩) →
      fetch_courses_go serve info (fuel + 1) page acc k tr =
        some (CanvasResultCourses.Ok acc, k + 1, tr ++ [Effect.netCall]))
    ∧ (∀ (serve : Oracle BodyOutcome) (msg : String) (fuel page : Nat) (acc : List Course)
        (k : Nat) (tr : List Effect),
      (∀ req, serve k req = TransportResult.ok ⟨200, BodyOutcome.parseErr msg⟩) →
      fetch_courses_go serve info (fuel + 1) page acc k tr =
        some (CanvasResultCourses.ErrCredentials (CoursesError.parseJson msg), k + 1,
          tr ++ [Effect.netCall]))
    ∧ (∀ (serve : Oracle BodyOutcome) (s : Nat) (b : BodyOutcome) (fuel page : Nat)
        (acc : List Course) (k : Nat) (tr : List Effect),
      (∀ req, serve k req = TransportResult.ok ⟨s, b⟩) →
      isSuccess s = false → s ≠ 403 →
      fetch_courses_go serve info (fuel + 1) page acc k tr =
        some (CanvasResultCourses.ErrConnection (HttpError.statusFailure s), k + 1,
          tr ++ [Effect.netCall])) := by
  refine ⟨?_, ?_, ?_, ?_⟩
  · intro serve pageContent hne hserve fuel page acc k tr
    exact fetch_courses_go_nonempty_forever serve info pageContent hne hserve fuel page acc k tr
  · intro serve fuel page acc k tr hserve
    have h := fetch_courses_go_pages serve info [] (fuel + 1) page acc k tr
      (by intro i req hi; simp at hi)
      (by simpa using hserve)
      rfl
      (by simp)
    simpa using h
  · intro serve msg fuel page acc k tr hserve
    exact fetch_courses_go_parse_error serve info msg fuel page acc k tr hserve
  · intro serve s b fuel page acc k tr hserve hs hs403
    exact fetch_courses_go_request_error serve info s b fuel page acc k tr hserve hs hs403

/-- A server whose every answer is a 200 with the one-element page
`[null]`. -/
def serveAlwaysNonempty : Oracle BodyOutcome :=
  fun _ _ => TransportResult.ok ⟨200, BodyOutcome.elems [Json.null]⟩

/-- A server whose every answer is a 200 with an empty page. -/
def serveAlwaysEmpty : Oracle BodyOutcome :=
  fun _ _ => TransportResult.ok ⟨200, BodyOutcome.elems []⟩

/-- Witness for C6: the always-non-empty server exhausts fuel 3 (and the
conclusion holds for every fuel), while the empty-page server stops at
once with the empty course list. -/
theorem fetch_courses_termination_characterisation_witness :
    fetch_courses_go serveAlwaysNonempty sampleCredentials 3 1 [] 0 [] = none
    ∧ fetch_courses_go serveAlwaysEmpty sampleCredentials 1 1 [] 0 [] =
        some (CanvasResultCourses.Ok [], 1, [Effect.netCall]) :=
  ⟨(fetch_courses_termination_characterisation sampleCredentials).1 serveAlwaysNonempty
      (fun _ => [Json.null]) (fun n => rfl) (fun n req => rfl) 3 1 [] 0 [],
   (fetch_courses_termination_characterisation sampleCredentials).2.1 serveAlwaysEmpty
      0 1 [] 0 [] (fun req => rfl)⟩

/-- C9: against a mock server answering non-empty pages then an empty
page, `fetch_students` succeeds and returns exactly the successfully
mapped elements, in order, silently dropping every element the mapper
rejects; and the mapper rejects any element whose `email` field is
missing or not a string. -/
theorem fetch_students_skips_unmappable (serve : Oracle (Except String (List Json)))
    (course_info : CourseInfo) (pages : List (List Json)) (fuel k : Nat)
    (hserve : ∀ i req, i < pages.length →
      serve (k + i) req = TransportResult.ok ⟨200, Except.ok (pages.getD i [])⟩)
    (hlast : ∀ req, serve (k + pages.length) req = TransportResult.ok ⟨200, Except.ok []⟩)
    (hne : pages.all (fun p => !p.isEmpty) = true)
    (hfuel : pages.length < fuel) :
    fetch_students serve course_info fuel k =
      some (Except.ok
          ((pages.map (fun p => p.filterMap (convert_json_to_student course_info))).join),
        k + pages.length + 1,
        List.replicate (pages.length + 1) Effect.netCall)
    ∧ ∀ student, (student.index "email").as_str = none →
        convert_json_to_student course_info student = none := by
  constructor
  · have h := fetch_students_go_pages serve course_info pages fuel 1 [] k []
      hserve hlast hne hfuel
    simpa [fetch_students] using h
  · intro student hmail
    cases h1 : (student.index "id").as_u64 with
    | none => simp [convert_json_to_student, h1]
    | some i =>
      cases h2 : (student.index "name").as_str with
      | none => simp [convert_json_to_student, h1, h2]
      | some nm => simp [convert_json_to_student, h1, h2, hmail]

/-- Course information for the C9 witness. -/
def sampleCourseInfo : CourseInfo :=
  ⟨42, "Course A", "CA", sampleCredentials⟩

/-- A student element carrying every required field. -/
def goodStudentJson : Json :=
  Json.obj [("id", Json.num 7), ("name", Json.str "Ann"), ("email", Json.str "ann@x.edu")]

/-- A student element missing the required `email` field. -/
def badStudentJson : Json :=
  Json.obj [("id", Json.num 8), ("name", Json.str "Bob")]

/-- Mock server for the C9 witness: one page holding a mappable and an
unmappable element, then empty pages. -/
def serveStudentsPages : Oracle (Except String (List Json)) :=
  fun n _ => TransportResult.ok
    ⟨200, Except.ok (([[goodStudentJson, badStudentJson]] : List (List Json)).getD n [])⟩

/-- Witness for C9: the fetch succeeds, keeps the mappable student,
silently drops the element missing `email`, and the mapper indeed
rejects that element. -/
theorem fetch_students_skips_unmappable_witness :
    fetch_students serveStudentsPages sampleCourseInfo 2 0 =
      some (Except.ok [⟨7, "Ann", "ann@x.edu"⟩], 2, List.replicate 2 Effect.netCall)
    ∧ convert_json_to_student sampleCourseInfo badStudentJson = none := by
  have h := fetch_students_skips_unmappable serveStudentsPages sampleCourseInfo
    [[goodStudentJson, badStudentJson]] 2 0
    (by
      intro i req hi
      have h2 : i < 1 := by simpa using hi
      interval_cases i <;> rfl)
    (fun req => rfl)
    rfl
    (by decide)
  exact ⟨h.1, h.2 badStudentJson rfl⟩

/-- C10: wherever the retry wrapper returns `ok`, the response status is
2xx; consequently the post-call non-success branches of its embedded
callers are unreachable: `fetch_courses_with_credentials` can never
produce the status-formatting `ErrCredentials`, and
`get_all_submissions` can never produce its status-formatting error. -/
theorem send_ok_success_and_dead_status_branches :
    (∀ (β : Type) (serve : Oracle β) (method : HttpMethod) (url : String)
        (info : CanvasCredentials) (params : List (String × String)) (k : Nat)
        (r : Response β),
      (send_http_request serve method url info params k).result = Except.ok r →
      isSuccess r.status = true)
    ∧ (∀ (serve : Oracle BodyOutcome) (info : CanvasCredentials) (fuel page : Nat)
        (acc : List Course) (k : Nat) (tr : List Effect) (s n : Nat) (e : List Effect),
      fetch_courses_go serve info fuel page acc k tr ≠
        some (CanvasResultCourses.ErrCredentials (CoursesError.fetchStatus s), n, e))
    ∧ (∀ (serve : Oracle (Except String (List Json))) (info : CanvasCredentials)
        (course_id assignment_id : Nat) (grouped : Bool) (fuel page : Nat)
        (acc : List Json) (k : Nat) (tr : List Effect) (s n : Nat) (e : List Effect),
      get_all_submissions_go serve info course_id assignment_id grouped fuel page acc k tr ≠
        some (Except.error (SubmissionsError.fetchStatus s), n, e)) :=
  ⟨fun _ _ _ _ _ _ _ _ h => send_ok_isSuccess h,
   fun serve info fuel page acc k tr s n e =>
     fetch_courses_go_no_fetchStatus serve info fuel page acc k tr s n e,
   fun serve info course_id assignment_id grouped fuel page acc k tr s n e =>
     get_all_submissions_go_no_fetchStatus serve info course_id assignment_id grouped
       fuel page acc k tr s n e⟩

/-- A server answering 200 with an empty page, for the C10 witness. -/
def serveOk200 : Oracle BodyOutcome :=
  fun _ _ => TransportResult.ok ⟨200, BodyOutcome.elems []⟩

/-- Witness for C10: a concrete `ok` result of the retry wrapper indeed
carries a 2xx status. -/
theorem send_ok_success_and_dead_status_branches_witness :
    isSuccess (Response.status ⟨200, BodyOutcome.elems []⟩) = true :=
  (send_ok_success_and_dead_status_branches).1 BodyOutcome serveOk200 HttpMethod.get
    "https://canvas.test/api/v1/courses" sampleCredentials [] 0
    ⟨200, BodyOutcome.elems []⟩ rfl

end CanvasLms
